import Mathlib

/-!
Shallow embedding of `src/esp32-micropython/main.py` (ESP32 MicroPython
weather station).  Python floats are modelled as exact rationals (`ℚ`): every
property checked here concerns formula structure, clamping and comparisons at
magnitudes far above float rounding error.  Python's `round(x, 2)` is modelled
as rounding `100 * x` to the nearest integer (Mathlib's `round`, half-up at
ties; no property below depends on the tie-breaking rule).  The MicroPython
`time.time()` result is a non-negative integer number of seconds, modelled as
`ℕ`; `//` and `%` on it coincide with `Nat` division and modulus.
Randomness (`getrandbits(10)`) is modelled by passing each drawn value as an
explicit argument.
-/

/-- Configuration constant `BASE_TEMPERATURE = 25.0` from main.py. -/
def BASE_TEMPERATURE : ℚ := 25.0

/-- Configuration constant `TEMP_VARIATION = 5.0` from main.py. -/
def TEMP_VARIATION : ℚ := 5.0

/-- Configuration constant `BASE_HUMIDITY = 60.0` from main.py. -/
def BASE_HUMIDITY : ℚ := 60.0

/-- Configuration constant `HUMIDITY_VARIATION = 15.0` from main.py. -/
def HUMIDITY_VARIATION : ℚ := 15.0

/-- Configuration constant `MAX_RETRIES = 3` from main.py. -/
def MAX_RETRIES : ℕ := 3

/-- Configuration constant `DEVICE_ID` from main.py. -/
def DEVICE_ID : String := "ESP32-001"

/-- Python `round(x, 2)`: round to two decimal digits. -/
def round2 (x : ℚ) : ℚ := ((round (x * 100) : ℤ) : ℚ) / 100

/-- First while loop of `math_sin_approx`:
`while x > 6.28318: x -= 6.28318`. -/
def reduceHigh (x : ℚ) : ℚ :=
  if h : x > 6.28318 then reduceHigh (x - 6.28318) else x
termination_by (⌈x / 6.28318⌉).toNat
decreasing_by
  have c0 : (0:ℚ) < 6.28318 := by norm_num
  have h1 : (1:ℚ) < x / 6.28318 := (one_lt_div c0).mpr h
  have h2 : ⌈(x - 6.28318) / 6.28318⌉ = ⌈x / 6.28318⌉ - 1 := by
    rw [sub_div, div_self (ne_of_gt c0), Int.ceil_sub_one]
  have h3 : (1:ℤ) < ⌈x / 6.28318⌉ := by
    rw [Int.lt_ceil]; exact_mod_cast h1
  rw [h2]; omega

/-- Second while loop of `math_sin_approx`:
`while x < 0: x += 6.28318`. -/
def reduceLow (x : ℚ) : ℚ :=
  if h : x < 0 then reduceLow (x + 6.28318) else x
termination_by (⌈-x / 6.28318⌉).toNat
decreasing_by
  have c0 : (0:ℚ) < 6.28318 := by norm_num
  have h2 : ⌈-(x + 6.28318) / 6.28318⌉ = ⌈-x / 6.28318⌉ - 1 := by
    rw [show -(x + 6.28318) = -x - 6.28318 by ring, sub_div,
      div_self (ne_of_gt c0), Int.ceil_sub_one]
  have h3 : (0:ℤ) < ⌈-x / 6.28318⌉ := by
    rw [Int.lt_ceil]
    exact_mod_cast div_pos (neg_pos.mpr h) c0
  rw [h2]; omega

/-- The source's `math_sin_approx`: range-reduce by repeatedly
subtracting/adding 6.28318, then apply the degree-7 Taylor polynomial
`x - x^3/6 + x^5/120 - x^7/5040`. -/
def math_sin_approx (x : ℚ) : ℚ :=
  let y := reduceLow (reduceHigh x)
  y - y^3/6 + y^5/120 - y^7/5040

/-- The daily temperature component of `generate_mock_temperature`:
`hour_of_day = (current_time // 3600) % 24` and
`daily_variation = 3.0 * math.sin((hour_of_day - 6) * 3.14159 / 12)`,
where `math.sin` is bound to `math_sin_approx` in the source. -/
def daily_variation (unixTime : ℕ) : ℚ :=
  let hour_of_day : ℕ := (unixTime / 3600) % 24
  3.0 * math_sin_approx (((hour_of_day : ℚ) - 6) * 3.14159 / 12)

/-- `generate_mock_temperature` from main.py; `rand` is the drawn
`getrandbits(10)` value. -/
def generate_mock_temperature (unixTime : ℕ) (rand : ℕ) : ℚ :=
  let random_variation := ((rand : ℚ) / 1024.0 - 0.5) * TEMP_VARIATION
  round2 (BASE_TEMPERATURE + daily_variation unixTime + random_variation)

/-- `generate_mock_humidity` from main.py.  It calls
`generate_mock_temperature()` afresh (consuming its own random draw
`randTemp`), then adds its own jitter from `randHum`, clamps to
`[20.0, 95.0]` and rounds to 2 decimals. -/
def generate_mock_humidity (unixTime : ℕ) (randTemp randHum : ℕ) : ℚ :=
  let temp_factor := (generate_mock_temperature unixTime randTemp - BASE_TEMPERATURE) * (-0.5)
  let random_variation := ((randHum : ℚ) / 1024.0 - 0.5) * HUMIDITY_VARIATION
  let humidity := BASE_HUMIDITY + temp_factor + random_variation
  round2 (max 20.0 (min 95.0 humidity))

/-! ### Evaluation and rounding helper lemmas -/

lemma reduceHigh_id (x : ℚ) (h : ¬ x > 6.28318) : reduceHigh x = x := by
  rw [reduceHigh]; exact dif_neg h

lemma reduceLow_id (x : ℚ) (h : ¬ x < 0) : reduceLow x = x := by
  rw [reduceLow]; exact dif_neg h

lemma reduceLow_step (x : ℚ) (h : x < 0) : reduceLow x = reduceLow (x + 6.28318) := by
  conv_lhs => rw [reduceLow]
  rw [dif_pos h]

lemma round_mono_q {x y : ℚ} (h : x ≤ y) : round x ≤ round y := by
  rw [round_eq, round_eq]
  exact Int.floor_mono (by linarith)

lemma round2_bounds {x : ℚ} {a b : ℤ} (ha : (a : ℚ) ≤ x) (hb : x ≤ (b : ℚ)) :
    (a : ℚ) ≤ round2 x ∧ round2 x ≤ (b : ℚ) := by
  have h1 : (a * 100 : ℤ) ≤ round (x * 100) := by
    have hc : ((a * 100 : ℤ) : ℚ) ≤ x * 100 := by push_cast; nlinarith
    have := round_mono_q hc
    rwa [round_intCast] at this
  have h2 : round (x * 100) ≤ (b * 100 : ℤ) := by
    have hc : x * 100 ≤ ((b * 100 : ℤ) : ℚ) := by push_cast; nlinarith
    have := round_mono_q hc
    rwa [round_intCast] at this
  constructor
  · rw [round2, le_div_iff₀ (by norm_num : (0:ℚ) < 100)]
    exact_mod_cast h1
  · rw [round2, div_le_iff₀ (by norm_num : (0:ℚ) < 100)]
    exact_mod_cast h2

lemma round2_eq_of (x : ℚ) (k : ℤ) (h1 : (k : ℚ) ≤ x * 100 + 1/2)
    (h2 : x * 100 + 1/2 < k + 1) : round2 x = (k : ℚ) / 100 := by
  have hf : ⌊x * 100 + 1/2⌋ = k := by
    rw [Int.floor_eq_iff]
    exact ⟨h1, by exact_mod_cast h2⟩
  rw [round2, round_eq, hf]

/-- Exact value of the code's daily temperature component at hour 0:
the range-reduced Taylor polynomial at 4.712385 blows up to about -3.6,
so the component is about -10.8 instead of the -3.0 the true sine gives. -/
lemma daily_variation_zero_eq :
    daily_variation 0 =
      -77464091437362672631037484013589276367351 / 7168000000000000000000000000000000000000 := by
  unfold daily_variation math_sin_approx
  norm_num
  rw [reduceHigh_id _ (by norm_num), reduceLow_step _ (by norm_num),
    reduceLow_id _ (by norm_num)]
  norm_num

lemma daily_variation_zero_lt : daily_variation 0 < -10 := by
  rw [daily_variation_zero_eq]; norm_num

lemma daily_variation_six : daily_variation (6 * 3600) = 0 := by
  unfold daily_variation math_sin_approx
  norm_num
  rw [reduceHigh_id _ (by norm_num), reduceLow_id _ (by norm_num)]
  norm_num

lemma daily_variation_eighteen : |daily_variation (18 * 3600)| < 1/4 := by
  unfold daily_variation math_sin_approx
  norm_num
  rw [reduceHigh_id _ (by norm_num), reduceLow_id _ (by norm_num)]
  rw [abs_lt]
  norm_num

lemma daily_variation_mod_day (t : ℕ) : daily_variation t = daily_variation (t % 86400) := by
  unfold daily_variation
  have h : t / 3600 % 24 = (t % 86400) / 3600 % 24 := by omega
  rw [h]

/-- Claim C3 (amended): the synthetic temperature's daily component is
`3.0 * math_sin_approx ((hour_of_day - 6) * 3.14159 / 12)` where
`math_sin_approx` is the source's range-reduced degree-7 Taylor polynomial,
not the standard sine.  The component has daily period, equals 0 exactly at
hour 6 and is within 0.25 of 0 at hour 18, but for hours before 6 the
Taylor polynomial is evaluated near 2π where it diverges from the true
sine: at hour 0 the component is below -10 (the standard-sine formula of
the claim gives -3). -/
theorem c3_daily_component_taylor :
    (∀ t : ℕ, daily_variation t = daily_variation (t % 86400)) ∧
    daily_variation (6 * 3600) = 0 ∧
    |daily_variation (18 * 3600)| < 1/4 ∧
    daily_variation 0 < -10 :=
  ⟨daily_variation_mod_day, daily_variation_six, daily_variation_eighteen,
    daily_variation_zero_lt⟩

/-- Claim C3 counterexample: at unix time 0 (hour_of_day 0), the daily
component computed by the code differs from the claimed closed form
`3.0 * sin((hour_of_day - 6) * π / 12)` with the standard sine, which
equals -3 there while the code produces a value below -10. -/
theorem c3_counterexample :
    ¬ (((daily_variation 0 : ℚ) : ℝ) =
        3.0 * Real.sin ((((0 / 3600 % 24 : ℕ) : ℝ) - 6) * Real.pi / 12)) := by
  intro hEq
  have h0 : ((((0 / 3600 % 24 : ℕ) : ℝ)) - 6) * Real.pi / 12 = -(Real.pi / 2) := by
    norm_num
    ring
  rw [h0, Real.sin_neg, Real.sin_pi_div_two] at hEq
  have hlt : ((daily_variation 0 : ℚ) : ℝ) < -10 := by
    exact_mod_cast daily_variation_zero_lt
  rw [hEq] at hlt
  norm_num at hlt

/-- Core of claim C7: clamping to `[20.0, 95.0]` then rounding to two
decimals always lands in `[20, 95]` on an exact hundredth. -/
lemma clamp_round_bounds (x : ℚ) :
    20 ≤ round2 (max 20.0 (min 95.0 x)) ∧ round2 (max 20.0 (min 95.0 x)) ≤ 95 ∧
    ∃ n : ℤ, round2 (max 20.0 (min 95.0 x)) = (n : ℚ) / 100 := by
  have h1 : (20 : ℚ) ≤ max 20.0 (min 95.0 x) :=
    le_trans (by norm_num) (le_max_left (20.0 : ℚ) (min 95.0 x))
  have h2 : max 20.0 (min 95.0 x) ≤ 95 := by
    apply max_le (by norm_num)
    calc min 95.0 x ≤ 95.0 := min_le_left _ _
    _ ≤ 95 := by norm_num
  have hb := round2_bounds (a := 20) (b := 95) (by exact_mod_cast h1) (by exact_mod_cast h2)
  exact ⟨by exact_mod_cast hb.1, by exact_mod_cast hb.2,
    round (max 20.0 (min 95.0 x) * 100), rfl⟩

/-- Claim C7: for every unix time and every pair of random draws (however
extreme), the produced humidity lies in `[20.0, 95.0]` and is an exact
multiple of 0.01 (rounded to 2 decimal digits). -/
theorem c7_humidity_clamped (t r1 r2 : ℕ) :
    20 ≤ generate_mock_humidity t r1 r2 ∧ generate_mock_humidity t r1 r2 ≤ 95 ∧
    ∃ n : ℤ, generate_mock_humidity t r1 r2 = (n : ℚ) / 100 :=
  clamp_round_bounds _

/-! ### Concrete evaluations of the mock generators -/

lemma generate_mock_temperature_eq (t r : ℕ) :
    generate_mock_temperature t r =
      round2 (BASE_TEMPERATURE + daily_variation t + ((r : ℚ) / 1024.0 - 0.5) * TEMP_VARIATION) :=
  rfl

lemma generate_mock_humidity_eq (t r1 r2 : ℕ) :
    generate_mock_humidity t r1 r2 =
      round2 (max 20.0 (min 95.0 (BASE_HUMIDITY +
        (generate_mock_temperature t r1 - BASE_TEMPERATURE) * (-0.5) +
        ((r2 : ℚ) / 1024.0 - 0.5) * HUMIDITY_VARIATION))) :=
  rfl

lemma round2_eval (x : ℚ) (k : ℤ) (r : ℚ) (h1 : (k : ℚ) ≤ x * 100 + 1/2)
    (h2 : x * 100 + 1/2 < k + 1) (hr : (k : ℚ) / 100 = r) : round2 x = r := by
  rw [round2_eq_of x k h1 h2, hr]

lemma clamp_round_eval (x : ℚ) (k : ℤ) (r : ℚ) (hlo : 20 ≤ x) (hhi : x ≤ 95)
    (h1 : (k : ℚ) ≤ x * 100 + 1/2) (h2 : x * 100 + 1/2 < k + 1)
    (hr : (k : ℚ) / 100 = r) : round2 (max 20.0 (min 95.0 x)) = r := by
  rw [min_eq_right (le_trans hhi (by norm_num)), max_eq_right (le_trans (by norm_num) hlo)]
  exact round2_eval x k r h1 h2 hr

lemma gmt_zero_zero : generate_mock_temperature 0 0 = 1169/100 := by
  rw [generate_mock_temperature_eq, daily_variation_zero_eq]
  exact round2_eval _ 1169 _ (by norm_num [BASE_TEMPERATURE, TEMP_VARIATION])
    (by norm_num [BASE_TEMPERATURE, TEMP_VARIATION]) (by norm_num)

lemma gmt_zero_maxdraw : generate_mock_temperature 0 1023 = 1669/100 := by
  rw [generate_mock_temperature_eq, daily_variation_zero_eq]
  exact round2_eval _ 1669 _ (by norm_num [BASE_TEMPERATURE, TEMP_VARIATION])
    (by norm_num [BASE_TEMPERATURE, TEMP_VARIATION]) (by norm_num)

lemma gmh_resampled_value : generate_mock_humidity 0 1023 512 = 1604/25 := by
  rw [generate_mock_humidity_eq, gmt_zero_maxdraw]
  exact clamp_round_eval _ 6416 _
    (by norm_num [BASE_TEMPERATURE, BASE_HUMIDITY, HUMIDITY_VARIATION])
    (by norm_num [BASE_TEMPERATURE, BASE_HUMIDITY, HUMIDITY_VARIATION])
    (by norm_num [BASE_TEMPERATURE, BASE_HUMIDITY, HUMIDITY_VARIATION])
    (by norm_num [BASE_TEMPERATURE, BASE_HUMIDITY, HUMIDITY_VARIATION])
    (by norm_num)

/-- The humidity that the same jitter draw would yield if it were computed
from the temperature sample actually reported in the reading
(`generate_mock_temperature 0 0`). -/
lemma humidity_from_reported_temp :
    round2 (max 20.0 (min 95.0 (BASE_HUMIDITY +
      (generate_mock_temperature 0 0 - BASE_TEMPERATURE) * (-0.5) +
      (((512 : ℕ) : ℚ) / 1024.0 - 0.5) * HUMIDITY_VARIATION))) = 3333/50 := by
  rw [gmt_zero_zero]
  exact clamp_round_eval _ 6666 _
    (by norm_num [BASE_TEMPERATURE, BASE_HUMIDITY, HUMIDITY_VARIATION])
    (by norm_num [BASE_TEMPERATURE, BASE_HUMIDITY, HUMIDITY_VARIATION])
    (by norm_num [BASE_TEMPERATURE, BASE_HUMIDITY, HUMIDITY_VARIATION])
    (by norm_num [BASE_TEMPERATURE, BASE_HUMIDITY, HUMIDITY_VARIATION])
    (by norm_num)

/-! ### Data model: sensor reading dictionaries and API payloads -/

/-- The dictionary returned by `get_sensor_readings`.  `none` in `type?` or
`error?` models the KEY BEING ABSENT from the dictionary (the error branch
of the source omits the "type" key; the ok branch omits the "error" key),
while `none` in `temperature`/`humidity` models the key being present with
value `None`. -/
structure SensorData where
  temperature : Option ℚ
  humidity : Option ℚ
  status : String
  type? : Option String
  error? : Option String
deriving DecidableEq, Repr

/-- `get_sensor_readings` from main.py.  `fault = some msg` models the
`try` block raising an exception rendered as `msg`; `r1` is the random
draw of the reported temperature, `r2` the draw of the temperature that
`generate_mock_humidity` re-samples internally, `r3` the humidity jitter
draw. -/
def get_sensor_readings (fault : Option String) (unixTime r1 r2 r3 : ℕ) : SensorData :=
  match fault with
  | none =>
      { temperature := some (generate_mock_temperature unixTime r1)
        humidity := some (generate_mock_humidity unixTime r2 r3)
        status := "ok"
        type? := some "mock"
        error? := none }
  | some e =>
      { temperature := none
        humidity := none
        status := "error"
        type? := none
        error? := some e }

structure DeviceInfo where
  platform : String
  framework : String
  version : String
deriving DecidableEq, Repr

structure NetworkInfo where
  rssi : Option ℤ
  ip : Option String
deriving DecidableEq, Repr

structure MemoryInfo where
  free : ℕ
  allocated : ℕ
deriving DecidableEq, Repr

/-- The nested "payload" object of the transmitted JSON document.
`error?` is `none` when the "error" key is absent. -/
structure InnerPayload where
  measurementCount : ℕ
  sensorStatus : String
  sensorType : String
  deviceInfo : DeviceInfo
  networkInfo : NetworkInfo
  memoryInfo : MemoryInfo
  error? : Option String
deriving DecidableEq, Repr

/-- The transmitted JSON document built by `create_measurement_payload`. -/
structure Payload where
  deviceId : String
  temperature : Option ℚ
  humidity : Option ℚ
  recordedAt : Option String
  payload : InnerPayload
deriving DecidableEq, Repr

/-- `create_measurement_payload` from main.py.  Its first action is
`measurement_count += 1` (modelled by returning `count + 1` as the new
global counter value).  The dictionary literal then evaluates
`sensor_data["type"]`; when that key is absent (the error branch of
`get_sensor_readings`) Python raises `KeyError`, modelled as
`Except.error`, BEFORE the function reaches the line that would attach
the error detail.  Network/memory diagnostics are passed in as `net`
and `mem`. -/
def create_measurement_payload (sensor_data : SensorData) (count : ℕ)
    (net : NetworkInfo) (mem : MemoryInfo) : ℕ × Except String Payload :=
  let count' := count + 1
  match sensor_data.type? with
  | none => (count', Except.error "KeyError: type")
  | some ty =>
      (count', Except.ok
        { deviceId := DEVICE_ID
          temperature := sensor_data.temperature
          humidity := sensor_data.humidity
          recordedAt := none
          payload :=
            { measurementCount := count'
              sensorStatus := sensor_data.status
              sensorType := ty
              deviceInfo := { platform := "ESP32", framework := "MicroPython", version := "1.0.0" }
              networkInfo := net
              memoryInfo := mem
              error? :=
                if sensor_data.status = "error" then
                  some (sensor_data.error?.getD "Unknown error")
                else none } })

/-- Claim C2 refuted (code bug): in the reading produced at unix time 0
with temperature draw 0, the humidity is computed from a re-sampled
temperature (draw 1023), not from the reported temperature sample.  With
humidity jitter draw 512 the delivered humidity (64.16) differs from the
humidity the same jitter would give when computed from the reading's own
reported temperature (66.66), and the two temperature samples differ. -/
theorem c2_humidity_uses_resampled_temperature :
    (get_sensor_readings none 0 0 1023 512).temperature = some (generate_mock_temperature 0 0) ∧
    generate_mock_temperature 0 1023 ≠ generate_mock_temperature 0 0 ∧
    (get_sensor_readings none 0 0 1023 512).humidity ≠
      some (round2 (max 20.0 (min 95.0 (BASE_HUMIDITY +
        (generate_mock_temperature 0 0 - BASE_TEMPERATURE) * (-0.5) +
        (((512 : ℕ) : ℚ) / 1024.0 - 0.5) * HUMIDITY_VARIATION)))) := by
  refine ⟨rfl, ?_, ?_⟩
  · rw [gmt_zero_maxdraw, gmt_zero_zero]; norm_num
  · have e1 : (get_sensor_readings none 0 0 1023 512).humidity =
        some (generate_mock_humidity 0 1023 512) := rfl
    rw [e1, gmh_resampled_value, humidity_from_reported_temp]
    simp only [ne_eq, Option.some_inj]
    norm_num

/-! ### Transmission engine -/

/-- What one HTTP POST to the collector would produce: either a response
with some status code, or a transport-level exception (timeout, connection
failure), which the source's `except` clause turns into `False`. -/
inductive SendOutcome where
  | response (code : ℕ)
  | failure (msg : String)
deriving DecidableEq, Repr

/-- Boolean result of `send_measurement` from main.py: `True` exactly when
the POST yields HTTP status 201; every other status code and every raised
exception gives `False`. -/
def send_measurement (o : SendOutcome) : Bool :=
  match o with
  | SendOutcome.response code => code == 201
  | SendOutcome.failure _ => false

/-- Per-attempt external world: the result the `check_wifi()` gate would
report, the outcome the HTTP POST would have, and the network/memory
diagnostics that payload construction would read. -/
structure AttemptEnv where
  wifiOk : Bool
  outcome : SendOutcome
  net : NetworkInfo
  mem : MemoryInfo

/-- How one invocation of `send_measurement_with_retry` ends: a returned
boolean, or an uncaught Python exception propagating out (rendered as a
message). -/
inductive RetryOutcome where
  | returned (b : Bool)
  | raised (msg : String)
deriving DecidableEq, Repr

/-- Instrumented trace of one `send_measurement_with_retry` invocation:
its outcome, the number of loop iterations entered (`attempts`), the number
of iterations that passed the `check_wifi` gate (`connected`), the number of
`send_measurement` calls (`sends`), the number of `time.sleep(RETRY_DELAY)`
calls (`sleeps`), the final value of the global `measurement_count`
(`finalCount`), and the `measurementCount` values carried by the payloads
built, in order (`payloadCounts`). -/
structure RetryTrace where
  outcome : RetryOutcome
  attempts : ℕ
  connected : ℕ
  sends : ℕ
  sleeps : ℕ
  finalCount : ℕ
  payloadCounts : List ℕ
deriving DecidableEq, Repr

/-- The `for attempt in range(1, MAX_RETRIES + 1)` loop of
`send_measurement_with_retry`, entered at loop variable `attempt` with the
global `measurement_count` equal to `count`.  Control flow mirrors the
source exactly: a failed `check_wifi` sleeps `RETRY_DELAY` and `continue`s
(unconditionally, even on the last attempt); otherwise the payload is built
(raising `KeyError` for an error-status reading, which propagates out of
the function); a 201 response returns `True` immediately; any other failed
send sleeps only when `attempt < maxRetries`; exhaustion returns `False`. -/
def send_measurement_with_retry_aux (env : ℕ → AttemptEnv) (sensor_data : SensorData)
    (maxRetries : ℕ) (count : ℕ) (attempt : ℕ) : RetryTrace :=
  if h : maxRetries < attempt then
    { outcome := RetryOutcome.returned false, attempts := 0, connected := 0,
      sends := 0, sleeps := 0, finalCount := count, payloadCounts := [] }
  else
    if (env attempt).wifiOk = false then
      let rest := send_measurement_with_retry_aux env sensor_data maxRetries count (attempt + 1)
      { rest with attempts := rest.attempts + 1, sleeps := rest.sleeps + 1 }
    else
      match create_measurement_payload sensor_data count (env attempt).net (env attempt).mem with
      | (count', Except.error msg) =>
          { outcome := RetryOutcome.raised msg, attempts := 1, connected := 1,
            sends := 0, sleeps := 0, finalCount := count', payloadCounts := [] }
      | (count', Except.ok _) =>
          if send_measurement (env attempt).outcome then
            { outcome := RetryOutcome.returned true, attempts := 1, connected := 1,
              sends := 1, sleeps := 0, finalCount := count', payloadCounts := [count'] }
          else
            let rest := send_measurement_with_retry_aux env sensor_data maxRetries count' (attempt + 1)
            { outcome := rest.outcome, attempts := rest.attempts + 1,
              connected := rest.connected + 1, sends := rest.sends + 1,
              sleeps := if attempt < maxRetries then rest.sleeps + 1 else rest.sleeps,
              finalCount := rest.finalCount, payloadCounts := count' :: rest.payloadCounts }
termination_by maxRetries + 1 - attempt
decreasing_by
  · omega
  · omega

/-- `send_measurement_with_retry(sensor_data)` from main.py: the loop runs
attempts `1 .. MAX_RETRIES` starting from global counter value `count`. -/
def send_measurement_with_retry (env : ℕ → AttemptEnv) (sensor_data : SensorData)
    (count : ℕ) : RetryTrace :=
  send_measurement_with_retry_aux env sensor_data MAX_RETRIES count 1

/-! ### Step lemmas for the retry loop -/

lemma create_measurement_payload_keyerror (sd : SensorData) (count : ℕ)
    (net : NetworkInfo) (mem : MemoryInfo) (hty : sd.type? = none) :
    create_measurement_payload sd count net mem = (count + 1, Except.error "KeyError: type") := by
  unfold create_measurement_payload
  rw [hty]

lemma create_measurement_payload_ok (sd : SensorData) (count : ℕ)
    (net : NetworkInfo) (mem : MemoryInfo) (ty : String) (hty : sd.type? = some ty) :
    ∃ p : Payload, create_measurement_payload sd count net mem = (count + 1, Except.ok p) ∧
      p.payload.measurementCount = count + 1 ∧
      p.payload.error? =
        (if sd.status = "error" then some (sd.error?.getD "Unknown error") else none) := by
  unfold create_measurement_payload
  rw [hty]
  exact ⟨_, rfl, rfl, rfl⟩

lemma aux_stop (env : ℕ → AttemptEnv) (sd : SensorData) (maxR count attempt : ℕ)
    (h : maxR < attempt) :
    send_measurement_with_retry_aux env sd maxR count attempt =
      { outcome := RetryOutcome.returned false, attempts := 0, connected := 0,
        sends := 0, sleeps := 0, finalCount := count, payloadCounts := [] } := by
  rw [send_measurement_with_retry_aux]
  exact dif_pos h

lemma aux_wifi_fail (env : ℕ → AttemptEnv) (sd : SensorData) (maxR count attempt : ℕ)
    (h : ¬ maxR < attempt) (hw : (env attempt).wifiOk = false) :
    send_measurement_with_retry_aux env sd maxR count attempt =
      { send_measurement_with_retry_aux env sd maxR count (attempt + 1) with
        attempts := (send_measurement_with_retry_aux env sd maxR count (attempt + 1)).attempts + 1,
        sleeps := (send_measurement_with_retry_aux env sd maxR count (attempt + 1)).sleeps + 1 } := by
  conv_lhs => rw [send_measurement_with_retry_aux]
  rw [dif_neg h, hw, if_pos rfl]

lemma aux_raised (env : ℕ → AttemptEnv) (sd : SensorData) (maxR count attempt : ℕ)
    (msg : String) (h : ¬ maxR < attempt) (hw : (env attempt).wifiOk = true)
    (hcmp : create_measurement_payload sd count (env attempt).net (env attempt).mem =
      (count + 1, Except.error msg)) :
    send_measurement_with_retry_aux env sd maxR count attempt =
      { outcome := RetryOutcome.raised msg, attempts := 1, connected := 1,
        sends := 0, sleeps := 0, finalCount := count + 1, payloadCounts := [] } := by
  conv_lhs => rw [send_measurement_with_retry_aux]
  rw [dif_neg h, hw]
  simp only [Bool.true_eq_false, if_false, hcmp]

lemma aux_send_ok (env : ℕ → AttemptEnv) (sd : SensorData) (maxR count attempt : ℕ)
    (p : Payload) (h : ¬ maxR < attempt) (hw : (env attempt).wifiOk = true)
    (hcmp : create_measurement_payload sd count (env attempt).net (env attempt).mem =
      (count + 1, Except.ok p))
    (hsend : send_measurement (env attempt).outcome = true) :
    send_measurement_with_retry_aux env sd maxR count attempt =
      { outcome := RetryOutcome.returned true, attempts := 1, connected := 1,
        sends := 1, sleeps := 0, finalCount := count + 1, payloadCounts := [count + 1] } := by
  conv_lhs => rw [send_measurement_with_retry_aux]
  rw [dif_neg h, hw]
  simp only [Bool.true_eq_false, if_false, hcmp, hsend, if_true]

lemma aux_send_fail (env : ℕ → AttemptEnv) (sd : SensorData) (maxR count attempt : ℕ)
    (p : Payload) (h : ¬ maxR < attempt) (hw : (env attempt).wifiOk = true)
    (hcmp : create_measurement_payload sd count (env attempt).net (env attempt).mem =
      (count + 1, Except.ok p))
    (hsend : send_measurement (env attempt).outcome = false) :
    send_measurement_with_retry_aux env sd maxR count attempt =
      { outcome := (send_measurement_with_retry_aux env sd maxR (count + 1) (attempt + 1)).outcome
        attempts := (send_measurement_with_retry_aux env sd maxR (count + 1) (attempt + 1)).attempts + 1
        connected := (send_measurement_with_retry_aux env sd maxR (count + 1) (attempt + 1)).connected + 1
        sends := (send_measurement_with_retry_aux env sd maxR (count + 1) (attempt + 1)).sends + 1
        sleeps := if attempt < maxR then
            (send_measurement_with_retry_aux env sd maxR (count + 1) (attempt + 1)).sleeps + 1
          else (send_measurement_with_retry_aux env sd maxR (count + 1) (attempt + 1)).sleeps
        finalCount := (send_measurement_with_retry_aux env sd maxR (count + 1) (attempt + 1)).finalCount
        payloadCounts :=
          (count + 1) :: (send_measurement_with_retry_aux env sd maxR (count + 1) (attempt + 1)).payloadCounts } := by
  conv_lhs => rw [send_measurement_with_retry_aux]
  rw [dif_neg h, hw]
  simp only [Bool.true_eq_false, if_false, hcmp, hsend, Bool.false_eq_true]

lemma send_measurement_true_iff (o : SendOutcome) :
    send_measurement o = true ↔ o = SendOutcome.response 201 := by
  cases o <;> simp [send_measurement]

lemma retry_wifi_down (env : ℕ → AttemptEnv) (sd : SensorData) (maxR : ℕ)
    (hw : ∀ a, (env a).wifiOk = false) :
    ∀ n attempt count, maxR + 1 - attempt ≤ n →
      send_measurement_with_retry_aux env sd maxR count attempt =
        { outcome := RetryOutcome.returned false, attempts := maxR + 1 - attempt,
          connected := 0, sends := 0, sleeps := maxR + 1 - attempt,
          finalCount := count, payloadCounts := [] } := by
  intro n
  induction n with
  | zero =>
      intro attempt count hle
      have hma : maxR < attempt := by omega
      rw [aux_stop env sd maxR count attempt hma]
      have h0 : maxR + 1 - attempt = 0 := by omega
      rw [h0]
  | succ n ih =>
      intro attempt count hle
      by_cases hma : maxR < attempt
      · rw [aux_stop env sd maxR count attempt hma]
        have h0 : maxR + 1 - attempt = 0 := by omega
        rw [h0]
      · rw [aux_wifi_fail env sd maxR count attempt hma (hw attempt),
          ih (attempt + 1) count (by omega)]
        simp only [RetryTrace.mk.injEq, and_true, true_and]
        omega

lemma retry_spec_ok (env : ℕ → AttemptEnv) (sd : SensorData) (ty : String)
    (hty : sd.type? = some ty) (maxR : ℕ) :
    ∀ n attempt count, maxR + 1 - attempt ≤ n →
      ((send_measurement_with_retry_aux env sd maxR count attempt).outcome =
          RetryOutcome.returned true ↔
        ∃ a, attempt ≤ a ∧ a ≤ maxR ∧ (env a).wifiOk = true ∧
          (env a).outcome = SendOutcome.response 201) ∧
      (∃ b, (send_measurement_with_retry_aux env sd maxR count attempt).outcome =
          RetryOutcome.returned b) ∧
      (send_measurement_with_retry_aux env sd maxR count attempt).finalCount =
        count + (send_measurement_with_retry_aux env sd maxR count attempt).payloadCounts.length ∧
      (send_measurement_with_retry_aux env sd maxR count attempt).payloadCounts =
        List.range' (count + 1)
          (send_measurement_with_retry_aux env sd maxR count attempt).payloadCounts.length ∧
      (send_measurement_with_retry_aux env sd maxR count attempt).payloadCounts.length =
        (send_measurement_with_retry_aux env sd maxR count attempt).connected := by
  intro n
  induction n with
  | zero =>
      intro attempt count hle
      have hma : maxR < attempt := by omega
      rw [aux_stop env sd maxR count attempt hma]
      refine ⟨?_, ⟨false, rfl⟩, by simp, by simp, by simp⟩
      simp only [RetryOutcome.returned.injEq]
      constructor
      · intro hf; exact absurd hf (by simp)
      · rintro ⟨a, ha1, ha2, -, -⟩; omega
  | succ n ih =>
      intro attempt count hle
      by_cases hma : maxR < attempt
      · rw [aux_stop env sd maxR count attempt hma]
        refine ⟨?_, ⟨false, rfl⟩, by simp, by simp, by simp⟩
        simp only [RetryOutcome.returned.injEq]
        constructor
        · intro hf; exact absurd hf (by simp)
        · rintro ⟨a, ha1, ha2, -, -⟩; omega
      · by_cases hwb : (env attempt).wifiOk = true
        · obtain ⟨p, hcmp, hpc, hpe⟩ :=
            create_measurement_payload_ok sd count (env attempt).net (env attempt).mem ty hty
          by_cases hs : send_measurement (env attempt).outcome = true
          · rw [aux_send_ok env sd maxR count attempt p hma hwb hcmp hs]
            refine ⟨?_, ⟨true, rfl⟩, by simp, by simp [List.range'], rfl⟩
            simp only [true_iff]
            exact ⟨attempt, le_refl _, by omega, hwb, (send_measurement_true_iff _).mp hs⟩
          · have hs' : send_measurement (env attempt).outcome = false := by
              revert hs; cases send_measurement (env attempt).outcome <;> simp
            rw [aux_send_fail env sd maxR count attempt p hma hwb hcmp hs']
            obtain ⟨ih1, ⟨b, ih2⟩, ih3, ih4, ih5⟩ := ih (attempt + 1) (count + 1) (by omega)
            simp only [List.length_cons]
            refine ⟨?_, ⟨b, ih2⟩, by omega, ?_, by omega⟩
            · rw [ih1]
              constructor
              · rintro ⟨a, ha1, ha2, hw', ho⟩
                exact ⟨a, by omega, ha2, hw', ho⟩
              · rintro ⟨a, ha1, ha2, hw', ho⟩
                rcases Nat.eq_or_lt_of_le ha1 with rfl | hlt
                · exact absurd ((send_measurement_true_iff _).mpr ho) (by simp [hs'])
                · exact ⟨a, by omega, ha2, hw', ho⟩
            · rw [List.range'_succ]
              exact congrArg (List.cons (count + 1)) ih4
        · have hwf : (env attempt).wifiOk = false := by
            revert hwb; cases (env attempt).wifiOk <;> simp
          rw [aux_wifi_fail env sd maxR count attempt hma hwf]
          obtain ⟨ih1, ⟨b, ih2⟩, ih3, ih4, ih5⟩ := ih (attempt + 1) count (by omega)
          refine ⟨?_, ⟨b, ih2⟩, ih3, ih4, ih5⟩
          rw [ih1]
          constructor
          · rintro ⟨a, ha1, ha2, hw', ho⟩
            exact ⟨a, by omega, ha2, hw', ho⟩
          · rintro ⟨a, ha1, ha2, hw', ho⟩
            rcases Nat.eq_or_lt_of_le ha1 with rfl | hlt
            · exact absurd hw' (by simp [hwf])
            · exact ⟨a, by omega, ha2, hw', ho⟩

lemma retry_count_mono (env : ℕ → AttemptEnv) (sd : SensorData) (maxR : ℕ) :
    ∀ n attempt count, maxR + 1 - attempt ≤ n →
      count ≤ (send_measurement_with_retry_aux env sd maxR count attempt).finalCount := by
  intro n
  induction n with
  | zero =>
      intro attempt count hle
      rw [aux_stop env sd maxR count attempt (by omega)]
  | succ n ih =>
      intro attempt count hle
      by_cases hma : maxR < attempt
      · rw [aux_stop env sd maxR count attempt hma]
      · by_cases hwb : (env attempt).wifiOk = true
        · cases hty : sd.type? with
          | none =>
              rw [aux_raised env sd maxR count attempt _ hma hwb
                (create_measurement_payload_keyerror sd count _ _ hty)]
              exact Nat.le_succ count
          | some ty =>
              obtain ⟨p, hcmp, -, -⟩ :=
                create_measurement_payload_ok sd count (env attempt).net (env attempt).mem ty hty
              by_cases hs : send_measurement (env attempt).outcome = true
              · rw [aux_send_ok env sd maxR count attempt p hma hwb hcmp hs]
                exact Nat.le_succ count
              · have hs' : send_measurement (env attempt).outcome = false := by
                  revert hs; cases send_measurement (env attempt).outcome <;> simp
                rw [aux_send_fail env sd maxR count attempt p hma hwb hcmp hs']
                exact le_trans (Nat.le_succ count) (ih (attempt + 1) (count + 1) (by omega))
        · have hwf : (env attempt).wifiOk = false := by
            revert hwb; cases (env attempt).wifiOk <;> simp
          rw [aux_wifi_fail env sd maxR count attempt hma hwf]
          exact ih (attempt + 1) count (by omega)

lemma retry_never201 (env : ℕ → AttemptEnv) (sd : SensorData) (ty : String)
    (hty : sd.type? = some ty) (maxR : ℕ)
    (hw : ∀ a, (env a).wifiOk = true)
    (hs : ∀ a, send_measurement (env a).outcome = false) :
    ∀ n attempt count, maxR + 1 - attempt ≤ n →
      send_measurement_with_retry_aux env sd maxR count attempt =
        { outcome := RetryOutcome.returned false, attempts := maxR + 1 - attempt,
          connected := maxR + 1 - attempt, sends := maxR + 1 - attempt,
          sleeps := maxR - attempt, finalCount := count + (maxR + 1 - attempt),
          payloadCounts := List.range' (count + 1) (maxR + 1 - attempt) } := by
  intro n
  induction n with
  | zero =>
      intro attempt count hle
      rw [aux_stop env sd maxR count attempt (by omega)]
      have h0 : maxR + 1 - attempt = 0 := by omega
      have h1 : maxR - attempt = 0 := by omega
      rw [h0, h1]
      simp
  | succ n ih =>
      intro attempt count hle
      by_cases hma : maxR < attempt
      · rw [aux_stop env sd maxR count attempt hma]
        have h0 : maxR + 1 - attempt = 0 := by omega
        have h1 : maxR - attempt = 0 := by omega
        rw [h0, h1]
        simp
      · obtain ⟨p, hcmp, -, -⟩ :=
          create_measurement_payload_ok sd count (env attempt).net (env attempt).mem ty hty
        rw [aux_send_fail env sd maxR count attempt p hma (hw attempt) hcmp (hs attempt),
          ih (attempt + 1) (count + 1) (by omega)]
        simp only [RetryTrace.mk.injEq, and_true, true_and]
        refine ⟨by omega, by omega, by omega, ?_, by omega, ?_⟩
        · split_ifs <;> omega
        · rw [show maxR + 1 - (attempt + 1) = maxR - attempt by omega,
            show maxR + 1 - attempt = (maxR - attempt) + 1 by omega, List.range'_succ]

/-! ### Concrete fixtures -/

/-- A fixed snapshot of connection diagnostics used in concrete runs. -/
def net0 : NetworkInfo := { rssi := some (-50), ip := some "192.168.0.2" }

/-- A fixed snapshot of heap diagnostics used in concrete runs. -/
def mem0 : MemoryInfo := { free := 100000, allocated := 50000 }

/-- World where wifi is up and the collector always answers 201 Created. -/
def env201 : ℕ → AttemptEnv := fun _ => ⟨true, SendOutcome.response 201, net0, mem0⟩

/-- World where wifi is up and the collector always answers 500. -/
def env500 : ℕ → AttemptEnv := fun _ => ⟨true, SendOutcome.response 500, net0, mem0⟩

/-- World where `check_wifi` fails on every attempt. -/
def envWifiDown : ℕ → AttemptEnv := fun _ => ⟨false, SendOutcome.failure "no wifi", net0, mem0⟩

/-- World where attempt 1 fails the wifi gate, attempt 2 is connected but
gets a 500, and attempt 3 is connected and gets a 201. -/
def envMixed : ℕ → AttemptEnv := fun a =>
  if a = 1 then ⟨false, SendOutcome.failure "no wifi", net0, mem0⟩
  else if a = 2 then ⟨true, SendOutcome.response 500, net0, mem0⟩
  else ⟨true, SendOutcome.response 201, net0, mem0⟩

/-- An ok reading as produced by the normal branch of `get_sensor_readings`. -/
def sdOk : SensorData := get_sensor_readings none 0 0 0 0

/-- An error reading as produced by the exception branch of
`get_sensor_readings`. -/
def sdErr : SensorData := get_sensor_readings (some "sensor fault") 0 0 0 0

/-- Claim C1 refuted (code bug): an Error-status reading carries its error
detail, but `create_measurement_payload` raises `KeyError` on the missing
"type" key before the error detail is ever attached, so the payload is
never built and nothing is transmitted: the whole retry call raises with
zero HTTP sends.  The reading IS silently dropped. -/
theorem c1_error_reading_dropped :
    sdErr.status = "error" ∧ sdErr.error? = some "sensor fault" ∧
    (create_measurement_payload sdErr 0 net0 mem0).2 = Except.error "KeyError: type" ∧
    (send_measurement_with_retry env201 sdErr 0).outcome = RetryOutcome.raised "KeyError: type" ∧
    (send_measurement_with_retry env201 sdErr 0).sends = 0 := by
  refine ⟨rfl, rfl, rfl, ?_, ?_⟩ <;>
    simp [send_measurement_with_retry, send_measurement_with_retry_aux, env201, MAX_RETRIES,
      sdErr, get_sensor_readings, create_measurement_payload]

/-- Claim C4: `send_measurement_with_retry` returns `True` exactly when some
attempt within the budget passes the wifi gate and receives HTTP 201; it
returns `False` exactly when no attempt does (any other status code or
transport failure counts as a failed attempt, and exhausting the budget
yields `False`).  Stated for any ok-type reading (an error reading raises
`KeyError` instead, see C1). -/
theorem c4_deliver_true_iff_201 (env : ℕ → AttemptEnv) (sd : SensorData) (ty : String)
    (count : ℕ) (hty : sd.type? = some ty) :
    ((send_measurement_with_retry env sd count).outcome = RetryOutcome.returned true ↔
      ∃ a, 1 ≤ a ∧ a ≤ MAX_RETRIES ∧ (env a).wifiOk = true ∧
        (env a).outcome = SendOutcome.response 201) ∧
    ((send_measurement_with_retry env sd count).outcome = RetryOutcome.returned false ↔
      ¬ ∃ a, 1 ≤ a ∧ a ≤ MAX_RETRIES ∧ (env a).wifiOk = true ∧
        (env a).outcome = SendOutcome.response 201) := by
  simp only [send_measurement_with_retry]
  obtain ⟨h1, ⟨b, h2⟩, -, -, -⟩ :=
    retry_spec_ok env sd ty hty MAX_RETRIES (MAX_RETRIES + 1 - 1) 1 count (le_refl _)
  refine ⟨h1, ?_, ?_⟩
  · intro hf hex
    have := h1.mpr hex
    rw [hf] at this
    exact absurd this (by simp)
  · intro hnex
    cases b with
    | true => exact absurd (h1.mp h2) hnex
    | false => exact h2

/-- Witness for C4 at a concrete world: wifi gate failure on attempt 1, a
500 on attempt 2, a 201 on attempt 3. -/
theorem c4_witness :
    (send_measurement_with_retry envMixed sdOk 0).outcome = RetryOutcome.returned true ↔
      ∃ a, 1 ≤ a ∧ a ≤ MAX_RETRIES ∧ (envMixed a).wifiOk = true ∧
        (envMixed a).outcome = SendOutcome.response 201 :=
  (c4_deliver_true_iff_201 envMixed sdOk "mock" 0 rfl).1

/-- Claim C5 counterexample: when the connectivity gate fails on every
attempt, the code sleeps `RETRY_DELAY` after EVERY attempt, including the
final one: 3 sleeps, not the at-most-2 the claim allows with
max_attempts = 3. -/
theorem c5_counterexample :
    (send_measurement_with_retry envWifiDown sdOk 0).sleeps = 3 ∧
    ¬ ((send_measurement_with_retry envWifiDown sdOk 0).sleeps ≤ 2) := by
  constructor <;>
    simp [send_measurement_with_retry, send_measurement_with_retry_aux, envWifiDown, MAX_RETRIES]

/-- Claim C5 (amended): after a failed HTTP send the engine sleeps
`RETRY_DELAY` only when attempts remain (so a never-succeeding endpoint
with wifi up gives exactly `MAX_RETRIES` attempts and sends and
`MAX_RETRIES - 1` sleeps), but after a connectivity-gate failure it always
sleeps, including after the final attempt (so an always-down wifi gives
`MAX_RETRIES` sleeps). -/
theorem c5_retry_delay_schedule :
    (∀ (env : ℕ → AttemptEnv) (sd : SensorData) (ty : String) (count : ℕ),
      sd.type? = some ty →
      (∀ a, (env a).wifiOk = true) →
      (∀ a, send_measurement (env a).outcome = false) →
      (send_measurement_with_retry env sd count).outcome = RetryOutcome.returned false ∧
      (send_measurement_with_retry env sd count).attempts = MAX_RETRIES ∧
      (send_measurement_with_retry env sd count).sends = MAX_RETRIES ∧
      (send_measurement_with_retry env sd count).sleeps = MAX_RETRIES - 1) ∧
    (∀ (env : ℕ → AttemptEnv) (sd : SensorData) (count : ℕ),
      (∀ a, (env a).wifiOk = false) →
      (send_measurement_with_retry env sd count).sleeps = MAX_RETRIES) := by
  constructor
  · intro env sd ty count hty hw hs
    simp only [send_measurement_with_retry]
    rw [retry_never201 env sd ty hty MAX_RETRIES hw hs (MAX_RETRIES + 1 - 1) 1 count (le_refl _)]
    dsimp only
    refine ⟨rfl, by omega, by omega, rfl⟩
  · intro env sd count hw
    simp only [send_measurement_with_retry]
    rw [retry_wifi_down env sd MAX_RETRIES hw (MAX_RETRIES + 1 - 1) 1 count (le_refl _)]
    dsimp only
    omega

/-- Witness for C5 at concrete worlds (an always-500 endpoint and an
always-down wifi). -/
theorem c5_witness :
    ((send_measurement_with_retry env500 sdOk 0).outcome = RetryOutcome.returned false ∧
      (send_measurement_with_retry env500 sdOk 0).attempts = MAX_RETRIES ∧
      (send_measurement_with_retry env500 sdOk 0).sends = MAX_RETRIES ∧
      (send_measurement_with_retry env500 sdOk 0).sleeps = MAX_RETRIES - 1) ∧
    (send_measurement_with_retry envWifiDown sdOk 5).sleeps = MAX_RETRIES :=
  ⟨c5_retry_delay_schedule.1 env500 sdOk "mock" 0 rfl (fun _ => rfl) (fun _ => rfl),
    c5_retry_delay_schedule.2 envWifiDown sdOk 5 (fun _ => rfl)⟩

/-- Claim C6: if the connectivity gate fails on every attempt, the engine
performs zero HTTP sends, never builds a payload (the counter is
untouched), and still returns `False` after running all `MAX_RETRIES`
attempts. -/
theorem c6_wifi_never_up_no_sends (env : ℕ → AttemptEnv) (sd : SensorData) (count : ℕ)
    (hw : ∀ a, (env a).wifiOk = false) :
    (send_measurement_with_retry env sd count).sends = 0 ∧
    (send_measurement_with_retry env sd count).outcome = RetryOutcome.returned false ∧
    (send_measurement_with_retry env sd count).attempts = MAX_RETRIES ∧
    (send_measurement_with_retry env sd count).finalCount = count := by
  simp only [send_measurement_with_retry]
  rw [retry_wifi_down env sd MAX_RETRIES hw (MAX_RETRIES + 1 - 1) 1 count (le_refl _)]
  dsimp only
  refine ⟨rfl, rfl, by omega, rfl⟩

/-- Witness for C6 at the concrete always-down wifi world. -/
theorem c6_witness :
    (send_measurement_with_retry envWifiDown sdOk 0).sends = 0 ∧
    (send_measurement_with_retry envWifiDown sdOk 0).outcome = RetryOutcome.returned false ∧
    (send_measurement_with_retry envWifiDown sdOk 0).attempts = MAX_RETRIES ∧
    (send_measurement_with_retry envWifiDown sdOk 0).finalCount = 0 :=
  c6_wifi_never_up_no_sends envWifiDown sdOk 0 (fun _ => rfl)

/-- Claim C10: for an ok reading, a payload is built afresh on every attempt
that passes the connectivity gate, so the global counter advances once per
CONNECTED attempt (not once per cycle): the payloads of one invocation
carry the consecutive values `count+1, count+2, ...` (strictly increasing,
hence pairwise distinct), and the counter ends at `count + connected`. -/
theorem c10_count_advances_per_connected_attempt (env : ℕ → AttemptEnv) (sd : SensorData)
    (ty : String) (count : ℕ) (hty : sd.type? = some ty) :
    (send_measurement_with_retry env sd count).payloadCounts =
      List.range' (count + 1) (send_measurement_with_retry env sd count).connected ∧
    (send_measurement_with_retry env sd count).finalCount =
      count + (send_measurement_with_retry env sd count).connected ∧
    (send_measurement_with_retry env sd count).payloadCounts.Pairwise (· < ·) := by
  simp only [send_measurement_with_retry]
  obtain ⟨-, -, h3, h4, h5⟩ :=
    retry_spec_ok env sd ty hty MAX_RETRIES (MAX_RETRIES + 1 - 1) 1 count (le_refl _)
  refine ⟨by rw [← h5]; exact h4, by rw [← h5]; exact h3, ?_⟩
  rw [h4]
  exact List.pairwise_lt_range' _ _

/-- Witness for C10 at the concrete mixed world (gate failure, then 500,
then 201: two connected attempts, two payloads, counter advances by 2). -/
theorem c10_witness :
    (send_measurement_with_retry envMixed sdOk 0).payloadCounts =
      List.range' (0 + 1) (send_measurement_with_retry envMixed sdOk 0).connected ∧
    (send_measurement_with_retry envMixed sdOk 0).finalCount =
      0 + (send_measurement_with_retry envMixed sdOk 0).connected ∧
    (send_measurement_with_retry envMixed sdOk 0).payloadCounts.Pairwise (· < ·) :=
  c10_count_advances_per_connected_attempt envMixed sdOk "mock" 0 rfl

/-! ### Measurement counter (claim C8) -/

/-- The module-level initialization `measurement_count = 0` in main.py. -/
def measurement_count_init : ℕ := 0

/-- Claim C8 counterexample: `measurement_count` is incremented by
`create_measurement_payload` BEFORE the dictionary literal is evaluated, so
a construction that fails (KeyError on an error-status reading) still
increments the counter: starting from 0 the counter becomes 1 although no
Payload was successfully built. -/
theorem c8_counterexample :
    (create_measurement_payload sdErr 0 net0 mem0).1 = 1 ∧
    ¬ ∃ p : Payload, (create_measurement_payload sdErr 0 net0 mem0).2 = Except.ok p := by
  constructor
  · rfl
  · rintro ⟨p, hp⟩
    simp [sdErr, get_sensor_readings, create_measurement_payload] at hp

/-- Claim C8 (amended): the counter starts at 0 at process startup, never
decreases, and is incremented exactly once per `create_measurement_payload`
INVOCATION — on ok readings that is exactly once per successful Payload
construction and the built payload carries the incremented value, but an
invocation that fails with KeyError (error-status reading) also increments
it. -/
theorem c8_count_monotone :
    measurement_count_init = 0 ∧
    (∀ (sd : SensorData) (count : ℕ) (net : NetworkInfo) (mem : MemoryInfo),
      (create_measurement_payload sd count net mem).1 = count + 1 ∧
      ∀ p : Payload, (create_measurement_payload sd count net mem).2 = Except.ok p →
        p.payload.measurementCount = count + 1) ∧
    (∀ (env : ℕ → AttemptEnv) (sd : SensorData) (count : ℕ),
      count ≤ (send_measurement_with_retry env sd count).finalCount) := by
  refine ⟨rfl, ?_, ?_⟩
  · intro sd count net mem
    constructor
    · cases hty : sd.type? with
      | none => rw [create_measurement_payload_keyerror sd count net mem hty]
      | some ty =>
          obtain ⟨q, hcmp, -, -⟩ := create_measurement_payload_ok sd count net mem ty hty
          rw [hcmp]
    · intro p hp
      cases hty : sd.type? with
      | none =>
          rw [create_measurement_payload_keyerror sd count net mem hty] at hp
          simp at hp
      | some ty =>
          obtain ⟨q, hcmp, hqc, -⟩ := create_measurement_payload_ok sd count net mem ty hty
          rw [hcmp] at hp
          simp only [Except.ok.injEq] at hp
          rw [← hp]
          exact hqc
  · intro env sd count
    simp only [send_measurement_with_retry]
    exact retry_count_mono env sd MAX_RETRIES (MAX_RETRIES + 1 - 1) 1 count (le_refl _)

/-- Witness for C8 at concrete inputs: a fresh process starts at 0; building
from an ok reading at counter 0 moves the counter to 1; a delivery run never
lowers the counter. -/
theorem c8_witness :
    measurement_count_init = 0 ∧
    (create_measurement_payload sdOk 0 net0 mem0).1 = 0 + 1 ∧
    5 ≤ (send_measurement_with_retry env201 sdOk 5).finalCount :=
  ⟨c8_count_monotone.1, (c8_count_monotone.2.1 sdOk 0 net0 mem0).1,
    c8_count_monotone.2.2 env201 sdOk 5⟩

/-! ### Scheduler (main loop, claim C9) -/

/-- Outcome of the body of one `while True` iteration of `main_loop`:
it completed, it raised an unexpected exception (caught by
`except Exception`), or the operator interrupted (caught by
`except KeyboardInterrupt`). -/
inductive CycleOutcome where
  | ok
  | fault (msg : String)
  | interrupt
deriving DecidableEq, Repr

/-- Whether a cycle outcome is an unexpected fault. -/
def isFault : CycleOutcome → Bool
  | CycleOutcome.fault _ => true
  | _ => false

/-- Observable trace of a `main_loop` run over a finite schedule:
how many cycles were started, how many `MEASUREMENT_INTERVAL` sleeps and
how many 30-second cooldown sleeps happened, and whether the loop was
stopped by the operator interrupt. -/
structure LoopTrace where
  cyclesStarted : ℕ
  intervalSleeps : ℕ
  cooldownSleeps : ℕ
  stoppedByInterrupt : Bool
deriving DecidableEq, Repr

/-- `main_loop` from main.py over a finite schedule of cycle outcomes
(the real loop is infinite; a finite schedule models a finite observation
window).  An ok cycle sleeps `MEASUREMENT_INTERVAL` and continues; a fault
is caught at the cycle boundary, sleeps the 30-second cooldown and
continues; `KeyboardInterrupt` breaks out of the loop. -/
def main_loop : List CycleOutcome → LoopTrace
  | [] =>
      { cyclesStarted := 0, intervalSleeps := 0, cooldownSleeps := 0,
        stoppedByInterrupt := false }
  | CycleOutcome.ok :: rest =>
      let t := main_loop rest
      { t with cyclesStarted := t.cyclesStarted + 1, intervalSleeps := t.intervalSleeps + 1 }
  | CycleOutcome.fault _ :: rest =>
      let t := main_loop rest
      { t with cyclesStarted := t.cyclesStarted + 1, cooldownSleeps := t.cooldownSleeps + 1 }
  | CycleOutcome.interrupt :: _ =>
      { cyclesStarted := 1, intervalSleeps := 0, cooldownSleeps := 0,
        stoppedByInterrupt := true }

/-- The `__main__` guard of main.py: `main_loop` runs only when
`startup_sequence()` succeeded; a fatal startup failure halts before any
cycle. -/
def run_station (startupOk : Bool) (schedule : List CycleOutcome) : LoopTrace :=
  if startupOk then main_loop schedule
  else
    { cyclesStarted := 0, intervalSleeps := 0, cooldownSleeps := 0,
      stoppedByInterrupt := false }

/-- Claim C9: an unexpected fault inside a cycle never terminates the
scheduler — on an interrupt-free schedule every scheduled cycle runs and
each fault contributes exactly one cooldown sleep; a fault at the head of
the schedule still lets all later cycles run; only the operator interrupt
stops the loop (immediately), and a fatal startup failure prevents any
cycle from running. -/
theorem c9_cycle_faults_contained :
    (∀ schedule : List CycleOutcome, CycleOutcome.interrupt ∉ schedule →
      (main_loop schedule).cyclesStarted = schedule.length ∧
      (main_loop schedule).stoppedByInterrupt = false ∧
      (main_loop schedule).cooldownSleeps = (schedule.filter isFault).length) ∧
    (∀ (msg : String) (rest : List CycleOutcome),
      (main_loop (CycleOutcome.fault msg :: rest)).cyclesStarted =
        (main_loop rest).cyclesStarted + 1 ∧
      (main_loop (CycleOutcome.fault msg :: rest)).cooldownSleeps =
        (main_loop rest).cooldownSleeps + 1 ∧
      (main_loop (CycleOutcome.fault msg :: rest)).stoppedByInterrupt =
        (main_loop rest).stoppedByInterrupt) ∧
    (∀ rest : List CycleOutcome,
      main_loop (CycleOutcome.interrupt :: rest) =
        { cyclesStarted := 1, intervalSleeps := 0, cooldownSleeps := 0,
          stoppedByInterrupt := true }) ∧
    (∀ schedule : List CycleOutcome, (run_station false schedule).cyclesStarted = 0) := by
  refine ⟨?_, fun msg rest => ⟨rfl, rfl, rfl⟩, fun rest => rfl, fun schedule => rfl⟩
  intro schedule
  induction schedule with
  | nil => intro _; exact ⟨rfl, rfl, rfl⟩
  | cons c rest ih =>
      intro h
      have hrest : CycleOutcome.interrupt ∉ rest := fun hm => h (List.mem_cons_of_mem _ hm)
      obtain ⟨ih1, ih2, ih3⟩ := ih hrest
      cases c with
      | ok => exact ⟨by simp [main_loop, ih1], by simp [main_loop, ih2],
          by simp [main_loop, isFault, ih3]⟩
      | fault m => exact ⟨by simp [main_loop, ih1], by simp [main_loop, ih2],
          by simp [main_loop, isFault, ih3]⟩
      | interrupt => exact absurd (List.mem_cons_self _ _) h

/-- Witness for C9 at a concrete schedule with a fault between two ok
cycles: all three cycles run, the loop is not stopped, one cooldown. -/
theorem c9_witness :
    (main_loop [CycleOutcome.ok, CycleOutcome.fault "boom", CycleOutcome.ok]).cyclesStarted = 3 ∧
    (main_loop [CycleOutcome.ok, CycleOutcome.fault "boom",
      CycleOutcome.ok]).stoppedByInterrupt = false ∧
    (main_loop [CycleOutcome.ok, CycleOutcome.fault "boom", CycleOutcome.ok]).cooldownSleeps = 1 := by
  obtain ⟨h1, h2, h3⟩ := c9_cycle_faults_contained.1
    [CycleOutcome.ok, CycleOutcome.fault "boom", CycleOutcome.ok] (by simp)
  exact ⟨by simpa using h1, h2, by simpa [isFault] using h3⟩
